/-
Verification development for the scholar-stream ingestion pipeline
(src/ingestion): a shallow embedding of the producer, the OpenAlex
paginated fetcher, the Firehose batch sink, the schema normalizer and
the synthetic-identity helper, together with theorems settling the
frozen claims about them.
-/
import Mathlib

/-! ## Python semantics helpers -/

/-- Python string truthiness applied by the `x or default` idiom on
`Optional[str]` values: `None` and `""` are falsy and select the default. -/
def pyOrStr (o : Option String) (d : String) : String :=
  match o with
  | some s => if s = "" then d else s
  | none => d

/-- ASCII whitespace stripped by the Python `int(str)` conversion. -/
def isPyWs (c : Char) : Bool :=
  c = ' ' || c = '\t' || c = '\n' || c = '\x0d' || c = '\x0b' || c = '\x0c'

/-- Digit-run parser used by the model of the Python `int(str)` conversion:
a nonempty run of decimal digits in which a single underscore may appear
between two digits. -/
def pyDigitsGo (acc : Nat) : List Char → Option Nat
  | [] => some acc
  | '_' :: c :: cs =>
      if c.isDigit then pyDigitsGo (acc * 10 + (c.toNat - 48)) cs else none
  | '_' :: [] => none
  | c :: cs =>
      if c.isDigit then pyDigitsGo (acc * 10 + (c.toNat - 48)) cs else none

/-- Digit-run parser entry: the run must start with a digit. -/
def pyDigits : List Char → Option Nat
  | [] => none
  | c :: cs => if c.isDigit then pyDigitsGo (c.toNat - 48) cs else none

/-- Model of the Python `int(str)` conversion in base 10: optional
surrounding whitespace, an optional sign, then digits (underscores allowed
between digits); `none` models the `ValueError` raised on anything else. -/
def pyIntParse (s : String) : Option Int :=
  let cs := ((s.toList.dropWhile isPyWs).reverse.dropWhile isPyWs).reverse
  match cs with
  | '+' :: rest => (pyDigits rest).map Int.ofNat
  | '-' :: rest => (pyDigits rest).map (fun n => -(n : Int))
  | rest => (pyDigits rest).map Int.ofNat

/-! ## SHA-1 (model of `hashlib.sha1`, bytes as `Nat` below 256) -/

/-- Left rotation of a 32-bit word. -/
def rotl32 (n w : Nat) : Nat :=
  ((w <<< n) ||| (w >>> (32 - n))) % 4294967296

/-- The five 32-bit words of SHA-1 chaining state. -/
structure SHA1State where
  a : Nat
  b : Nat
  c : Nat
  d : Nat
  e : Nat
deriving DecidableEq, Repr

/-- SHA-1 initial chaining state. -/
def sha1Init : SHA1State :=
  ⟨0x67452301, 0xEFCDAB89, 0x98BADCFE, 0x10325476, 0xC3D2E1F0⟩

/-- SHA-1 round mixing function for round `t`. -/
def sha1F (t b c d : Nat) : Nat :=
  if t < 20 then (b &&& c) ||| ((b ^^^ 4294967295) &&& d)
  else if t < 40 then b ^^^ c ^^^ d
  else if t < 60 then (b &&& c) ||| (b &&& d) ||| (c &&& d)
  else b ^^^ c ^^^ d

/-- SHA-1 round constant for round `t`. -/
def sha1K (t : Nat) : Nat :=
  if t < 20 then 0x5A827999
  else if t < 40 then 0x6ED9EBA1
  else if t < 60 then 0x8F1BBCDC
  else 0xCA62C1D6

/-- First sixteen 32-bit big-endian schedule words of a 64-byte block. -/
def sha1W16 (block : List Nat) : List Nat :=
  (List.range 16).map fun i =>
    (block.getD (4 * i) 0) <<< 24 + (block.getD (4 * i + 1) 0) <<< 16 +
      (block.getD (4 * i + 2) 0) <<< 8 + block.getD (4 * i + 3) 0

/-- Extension of the message schedule from 16 to 80 words. -/
def sha1Schedule (w : List Nat) : List Nat :=
  (List.range 64).foldl
    (fun acc _ =>
      acc ++ [rotl32 1 ((acc.getD (acc.length - 3) 0) ^^^ (acc.getD (acc.length - 8) 0) ^^^
        (acc.getD (acc.length - 14) 0) ^^^ (acc.getD (acc.length - 16) 0))])
    w

/-- One SHA-1 round on the working state. -/
def sha1Round (w : List Nat) (st : SHA1State) (t : Nat) : SHA1State :=
  ⟨(rotl32 5 st.a + sha1F t st.b st.c st.d + st.e + sha1K t + w.getD t 0) % 4294967296,
    st.a, rotl32 30 st.b, st.c, st.d⟩

/-- Compression of one 64-byte block into the chaining state. -/
def sha1Block (h : SHA1State) (block : List Nat) : SHA1State :=
  let w := sha1Schedule (sha1W16 block)
  let f := (List.range 80).foldl (sha1Round w) h
  ⟨(h.a + f.a) % 4294967296, (h.b + f.b) % 4294967296, (h.c + f.c) % 4294967296,
    (h.d + f.d) % 4294967296, (h.e + f.e) % 4294967296⟩

/-- Big-endian 8-byte rendering of a length in bits. -/
def be64 (n : Nat) : List Nat :=
  [(n >>> 56) % 256, (n >>> 48) % 256, (n >>> 40) % 256, (n >>> 32) % 256,
    (n >>> 24) % 256, (n >>> 16) % 256, (n >>> 8) % 256, n % 256]

/-- Big-endian 4-byte rendering of a 32-bit word. -/
def w32beBytes (w : Nat) : List Nat :=
  [(w >>> 24) % 256, (w >>> 16) % 256, (w >>> 8) % 256, w % 256]

/-- SHA-1 message padding: `0x80`, zeros to 56 mod 64, then the 64-bit
big-endian bit length. -/
def sha1Pad (msg : List Nat) : List Nat :=
  msg ++ [0x80] ++ List.replicate ((119 - msg.length % 64) % 64) 0 ++ be64 (8 * msg.length)

/-- The `i`-th 64-byte block of a padded message. -/
def sha1NthBlock (l : List Nat) (i : Nat) : List Nat :=
  (l.drop (64 * i)).take 64

/-- SHA-1 digest of a byte sequence, as 20 bytes. -/
def sha1Bytes (msg : List Nat) : List Nat :=
  let padded := sha1Pad msg
  let fin := (List.range (padded.length / 64)).foldl
    (fun st i => sha1Block st (sha1NthBlock padded i)) sha1Init
  w32beBytes fin.a ++ w32beBytes fin.b ++ w32beBytes fin.c ++
    w32beBytes fin.d ++ w32beBytes fin.e

/-- The sixteen lowercase hexadecimal digits. -/
def hexDigits : List Char :=
  "0123456789abcdef".toList

/-- Lowercase hexadecimal digit of a nibble. -/
def nibbleHex (n : Nat) : Char :=
  hexDigits.getD (n % 16) 'x'

/-- The two hexadecimal characters of one byte, high nibble first. -/
def byteHexPair (b : Nat) : List Char :=
  [nibbleHex (b / 16), nibbleHex b]

/-- Character list of `hashlib.sha1(msg).hexdigest()`. -/
def sha1HexChars (msg : List Nat) : List Char :=
  ((sha1Bytes msg).map byteHexPair).flatten

/-- UTF-8 encoding of one scalar value. -/
def utf8EncodeChar (c : Char) : List Nat :=
  let n := c.toNat
  if n < 128 then [n]
  else if n < 2048 then [192 + n / 64, 128 + n % 64]
  else if n < 65536 then [224 + n / 4096, 128 + (n / 64) % 64, 128 + n % 64]
  else [240 + n / 262144, 128 + (n / 4096) % 64, 128 + (n / 64) % 64, 128 + n % 64]

/-- Model of `str.encode("utf-8")`. -/
def utf8Encode (s : String) : List Nat :=
  (s.toList.map utf8EncodeChar).flatten

/-! ## `src/ingestion/utils.py` -/

/-- Model of `synthetic_email`: the seed is `name or "unknown"` (Python truthiness, so
`None` and the empty string both fall back), the digest is the SHA-1
hexdigest of the UTF-8 seed truncated to 10 characters, and the domain
defaults to `example.com`. -/
def synthetic_email (name : Option String) (domain : String := "example.com") : String :=
  let seed := utf8Encode (pyOrStr name "unknown")
  let h := String.mk ((sha1HexChars seed).take 10)
  "user_" ++ h ++ "@" ++ domain

/-! ## `src/ingestion/schema.py`

Pydantic models become structures of optional fields; `datetime` values
are modelled as integer timestamps; `uuid.uuid4` (the `load_id` default
factory) is modelled by an injected fresh-identifier oracle threaded by
the producer loop. -/

/-- Pydantic model `HostVenue`. -/
structure HostVenue where
  display_name : Option String := none
deriving DecidableEq, Repr

/-- Pydantic model `AuthorRef`. -/
structure AuthorRef where
  display_name : Option String := none
deriving DecidableEq, Repr

/-- Pydantic model `Authorship`. -/
structure Authorship where
  author : Option AuthorRef := none
deriving DecidableEq, Repr

/-- Pydantic model `OpenAlexWork` (extra fields ignored; all declared
fields optional). -/
structure OpenAlexWork where
  id : Option String := none
  doi : Option String := none
  title : Option String := none
  publication_year : Option Int := none
  host_venue : Option HostVenue := none
  authorships : Option (List Authorship) := none
  email : Option String := none
  event_ts : Option Int := none
deriving DecidableEq, Repr

/-- Pydantic model `Envelope`: the canonical record pushed to Firehose. -/
structure Envelope where
  id : Option String := none
  doi : Option String := none
  title : Option String := none
  publication_year : Option Int := none
  host_venue : Option String := none
  primary_author : Option String := none
  email : Option String := none
  event_ts : Int
  ingest_ts : Int
  source : String := "openalex"
  load_id : String
deriving DecidableEq, Repr

/-- The guarded author lookup
`w.authorships[0].author.display_name if (w.authorships and w.authorships[0].author) else None`
(shared by `producer.main` and `Envelope.from_openalex`; `None` and the
empty list are falsy). -/
def firstAuthorName (w : OpenAlexWork) : Option String :=
  match w.authorships with
  | some (a :: _) =>
      match a.author with
      | some ar => ar.display_name
      | none => none
  | _ => none

/-- Model of `Envelope.from_openalex` (`load_id` is the fresh identifier the
pydantic default factory would generate at construction). -/
def Envelope.from_openalex (w : OpenAlexWork) (event_ts ingest_ts : Int)
    (email : Option String) (source : String) (load_id : String) : Envelope :=
  { id := w.id
    doi := w.doi
    title := w.title
    publication_year := w.publication_year
    host_venue := match w.host_venue with
      | some hv => hv.display_name
      | none => none
    primary_author := firstAuthorName w
    email := email
    event_ts := event_ts
    ingest_ts := ingest_ts
    source := source
    load_id := load_id }

/-- JSON scalar values occurring in a serialized envelope. -/
inductive JVal where
  | s (v : String)
  | i (v : Int)
deriving DecidableEq, Repr

/-- A serialized record: ordered key-value pairs of a JSON object. -/
abbrev Rec : Type := List (String × JVal)

/-- One optional field of a pydantic dump: present only when the value
is not `None`. -/
def optField (k : String) (o : Option α) (f : α → JVal) : List (String × JVal) :=
  match o with
  | some v => [(k, f v)]
  | none => []

/-- Model of `Envelope.model_dump(by_alias=True, mode="json", exclude_none=True)`:
fields in declaration order, `None`-valued fields omitted, `load_id`
serialized under its alias `_LOAD_ID`, timestamps rendered as scalars. -/
def Envelope.model_dump (e : Envelope) : Rec :=
  optField "id" e.id .s ++ optField "doi" e.doi .s ++ optField "title" e.title .s ++
    optField "publication_year" e.publication_year .i ++
    optField "host_venue" e.host_venue .s ++
    optField "primary_author" e.primary_author .s ++ optField "email" e.email .s ++
    [("event_ts", .i e.event_ts), ("ingest_ts", .i e.ingest_ts),
      ("source", .s e.source), ("_LOAD_ID", .s e.load_id)]

/-! ## `src/ingestion/firehose_client.py` -/

/-- Four-digit lowercase hexadecimal rendering. -/
def hex4 (n : Nat) : String :=
  String.mk [nibbleHex (n / 4096), nibbleHex (n / 256), nibbleHex (n / 16), nibbleHex n]

/-- Escaping of one character as in `json.dumps` (default `ensure_ascii`). -/
def jsonEscapeChar (c : Char) : String :=
  if c = '"' then "\\\""
  else if c = '\\' then "\\\\"
  else if c = '\n' then "\\n"
  else if c = '\t' then "\\t"
  else if c = '\x0d' then "\\r"
  else if c.toNat = 8 then "\\b"
  else if c.toNat = 12 then "\\f"
  else if c.toNat < 32 then "\\u" ++ hex4 c.toNat
  else if c.toNat < 128 then String.mk [c]
  else if c.toNat < 65536 then "\\u" ++ hex4 c.toNat
  else "\\u" ++ hex4 (55296 + (c.toNat - 65536) / 1024) ++
    "\\u" ++ hex4 (56320 + (c.toNat - 65536) % 1024)

/-- JSON string literal as produced by `json.dumps`. -/
def jsonStr (s : String) : String :=
  "\"" ++ String.join (s.toList.map jsonEscapeChar) ++ "\""

/-- Rendering of a JSON scalar. -/
def JVal.render : JVal → String
  | .s v => jsonStr v
  | .i v => toString v

/-- Model of `json.dumps(r, separators=(",", ":"))` on an object of scalar fields. -/
def jsonDumps (r : Rec) : String :=
  "\x7b" ++ String.intercalate ","
    ((r : List (String × JVal)).map fun p => jsonStr p.1 ++ ":" ++ p.2.render) ++ "\x7d"

/-- A `PutRecordBatch` response: `FailedPutCount` (absent key modelled as
`none`; the AWS shape is a non-negative count) and per-record
`(ErrorCode, ErrorMessage)` diagnostics. -/
structure FirehoseResp where
  failedPutCount : Option Nat := none
  requestResponses : List (Option String × Option String) := []
deriving DecidableEq, Repr

/-- One `put_record_batch` transport call: the stream name and the
byte payload of every entry. -/
structure PutCall where
  deliveryStreamName : String
  entries : List (List Nat)
deriving DecidableEq, Repr

/-- Model of `FirehoseSink`: the stream name plus the underlying boto3 transport,
modelled as a function from the issued call to its response. -/
structure FirehoseSink where
  stream_name : String
  transport : PutCall → FirehoseResp

/-- Model of `FirehoseSink.put_records`: encodes every record as one UTF-8 NDJSON
line and issues a single `put_record_batch` call with all entries; the
source performs no batch-length check. Returns the response together
with the call that was made. -/
def FirehoseSink.put_records (sink : FirehoseSink) (records_json : List Rec) :
    FirehoseResp × PutCall :=
  let entries := records_json.map fun r => utf8Encode (jsonDumps r ++ "\n")
  let call : PutCall := ⟨sink.stream_name, entries⟩
  (sink.transport call, call)

/-! ## `src/ingestion/openalex_client.py`

`works_stream` is modelled against a script of HTTP responses: each loop
iteration performs one `session.get` and consumes the head of the script.
Only the cursor varies across requests (page size, mailto and filters are
fixed at entry), so a request event records the cursor it was issued
with; sleeps are recorded as events too. -/

/-- One upstream HTTP response: status, the `Retry-After` header when
present, and the JSON payload fields the client reads (`results`, and
`meta.next_cursor` where `none` covers both null and absent). -/
structure HttpResponse (I : Type) where
  status : Nat
  retryAfter : Option String := none
  results : List I := []
  nextCursor : Option String := none
deriving DecidableEq, Repr

/-- Observable side effects of the fetch loop. -/
inductive FetchEvent where
  | req (cursor : String)
  | slept (seconds : Rat)
deriving DecidableEq, Repr

/-- How the fetch sequence ended. -/
inductive FetchHalt where
  /-- Normal termination (generator exhausted). -/
  | done
  /-- Case where `int()` raised `ValueError` on a `Retry-After` header. -/
  | valueError
  /-- Case where `time.sleep` raised `ValueError` on a negative duration. -/
  | sleepError
  /-- Case where `raise_for_status` raised on a non-2xx, non-429 status. -/
  | httpError (status : Nat)
  /-- Model artifact: the response script was exhausted. -/
  | scriptEnded
deriving DecidableEq, Repr

/-- Outcome of a fetch sequence: items yielded before the end, the events
performed, and how it halted. -/
structure StreamOut (I : Type) where
  items : List I
  trace : List FetchEvent
  halt : FetchHalt
deriving DecidableEq, Repr

/-- Python truthiness of the `meta.next_cursor` value: `None`, absent and
the empty string all end the sequence. -/
def pyTruthyCursor (o : Option String) : Option String :=
  match o with
  | some s => if s = "" then none else some s
  | none => none

/-- The `if max_pages and page_count >= max_pages` guard: `None` and `0`
are falsy, so neither caps the run. -/
def pyCapReached (maxPages : Option Int) (pageCount : Nat) : Bool :=
  match maxPages with
  | some m => m ≠ 0 && (pageCount : Int) ≥ m
  | none => false

/-- The `while True` loop body of `works_stream`, one script entry per
`session.get`. On 429 it parses `Retry-After` (default "2"), sleeps and
retries with unchanged cursor and page count; other non-2xx statuses
abort; on success it yields the page, stops on a falsy cursor, counts
the page against the cap, and sleeps `sleep_seconds` if truthy. -/
def worksStreamAux (cursor : String) (pageCount : Nat) (maxPages : Option Int)
    (sleepSeconds : Rat) : List (HttpResponse I) → StreamOut I
  | [] => ⟨[], [], .scriptEnded⟩
  | r :: rest =>
    if r.status = 429 then
      match pyIntParse (r.retryAfter.getD "2") with
      | none => ⟨[], [.req cursor], .valueError⟩
      | some n =>
        if n < 0 then ⟨[], [.req cursor], .sleepError⟩
        else
          let out := worksStreamAux cursor pageCount maxPages sleepSeconds rest
          ⟨out.items, .req cursor :: .slept (n : Rat) :: out.trace, out.halt⟩
    else if 400 ≤ r.status then ⟨[], [.req cursor], .httpError r.status⟩
    else
      match pyTruthyCursor r.nextCursor with
      | none => ⟨r.results, [.req cursor], .done⟩
      | some nc =>
        if pyCapReached maxPages (pageCount + 1) then ⟨r.results, [.req cursor], .done⟩
        else if sleepSeconds = 0 then
          let out := worksStreamAux nc (pageCount + 1) maxPages sleepSeconds rest
          ⟨r.results ++ out.items, .req cursor :: out.trace, out.halt⟩
        else if sleepSeconds < 0 then ⟨r.results, [.req cursor], .sleepError⟩
        else
          let out := worksStreamAux nc (pageCount + 1) maxPages sleepSeconds rest
          ⟨r.results ++ out.items, .req cursor :: .slept sleepSeconds :: out.trace, out.halt⟩

/-- Model of `OpenAlexClient.works_stream`: the loop starts at the sentinel cursor
`*` with zero pages consumed. -/
def works_stream (maxPages : Option Int) (sleepSeconds : Rat)
    (responses : List (HttpResponse I)) : StreamOut I :=
  worksStreamAux "*" 0 maxPages sleepSeconds responses

/-- A 429 response carrying an optional `Retry-After` header (its body is
not read by the client). -/
def rateLimited (h : Option String) : HttpResponse I :=
  ⟨429, h, [], none⟩

/-- A successful page with its result items and `meta.next_cursor`. -/
def pageResp (items : List I) (nextCursor : Option String) : HttpResponse I :=
  ⟨200, none, items, nextCursor⟩

/-! ## `src/ingestion/config.py` -/

/-- Model of `Settings`: environment-backed configuration; field defaults are the
source defaults used when the corresponding variable is unset. -/
structure Settings where
  aws_region : String := "us-east-1"
  firehose_name : String := "scholarstream-openalex"
  openalex_base_url : String := "https://api.openalex.org"
  openalex_email : String := ""
  batch_size : Int := 50
  sleep_seconds : Rat := 2
  source : String := "openalex"
deriving DecidableEq, Repr

/-- Model of `Settings.validate`: empty required settings raise `ValueError` with a
message naming the setting, in source order. -/
def Settings.validate (s : Settings) : Except String Unit :=
  if s.openalex_email = "" then
    .error "OPENALEX_EMAIL is required for polite use of the OpenAlex API."
  else if s.aws_region = "" then .error "AWS_REGION is required."
  else if s.firehose_name = "" then .error "FIREHOSE_NAME is required."
  else .ok ()

/-! ## `src/ingestion/producer.py` -/

/-- Counters and observable effects of one producer run: final totals,
every transport call the sink made, and every batch handed to `flush`
(delivered or dry-run printed). -/
structure RunOut where
  totalSent : Nat
  totalFailed : Nat
  sinkCalls : List PutCall
  flushedBatches : List (List Envelope)
deriving Repr

/-- Model of `flush`: serializes the batch with
`model_dump(by_alias=True, mode="json", exclude_none=True)`; in dry-run
it only prints and returns the counters unchanged (no sink call);
otherwise it calls the sink once, adds the attempted record count to
`total` and `int(resp.get("FailedPutCount", 0) or 0)` to `failed`.
The third component reports the transport call made, if any. -/
def flush (batch : List Envelope) (sink : FirehoseSink) (dry_run : Bool)
    (total failed : Nat) : Nat × Nat × Option PutCall :=
  let records := batch.map Envelope.model_dump
  if dry_run then (total, failed, none)
  else
    let r := sink.put_records records
    (total + records.length, failed + (r.1.failedPutCount.getD 0), some r.2)

/-- The `for raw in oa.works_stream(...)` body of `producer.main`:
validate the raw work, backfill `email` with `w.email or
synthetic_email(first author name)`, build the envelope (both timestamps
the same `now`), append to the batch, and flush whenever the batch
reaches `eff_batch_size`; the remainder is flushed after the loop. The
wall clock and the uuid factory are oracles indexed by record position. -/
def runLoop (sink : FirehoseSink) (dry_run : Bool) (batchSize : Nat) (source : String)
    (uuidAt : Nat → String) (nowAt : Nat → Int) (idx : Nat) (batch : List Envelope)
    (total failed : Nat) : List OpenAlexWork → RunOut
  | [] =>
    match batch with
    | [] => ⟨total, failed, [], []⟩
    | _ =>
      let r := flush batch sink dry_run total failed
      ⟨r.1, r.2.1, r.2.2.toList, [batch]⟩
  | w :: rest =>
    let email := pyOrStr w.email (synthetic_email (firstAuthorName w))
    let env := Envelope.from_openalex w (nowAt idx) (nowAt idx) (some email) source (uuidAt idx)
    let batch2 := batch ++ [env]
    if batchSize ≤ batch2.length then
      let r := flush batch2 sink dry_run total failed
      let out := runLoop sink dry_run batchSize source uuidAt nowAt (idx + 1) [] r.1 r.2.1 rest
      ⟨out.totalSent, out.totalFailed, r.2.2.toList ++ out.sinkCalls,
        batch2 :: out.flushedBatches⟩
    else runLoop sink dry_run batchSize source uuidAt nowAt (idx + 1) batch2 total failed rest

/-- Model of `eff_batch_size = batch_size or cfg.batch_size`: Python truthiness, so
an explicit `0` falls back to the configured default. -/
def effBatchSize (batchSizeArg : Option Int) (cfg : Settings) : Int :=
  match batchSizeArg with
  | some n => if n = 0 then cfg.batch_size else n
  | none => cfg.batch_size

/-- The configuration stage of `producer.main`, in source order:
`cfg.validate()`, then the effective batch size, rejected with
`typer.BadParameter` when outside 1..500. Runs before any client is
built, hence before any network activity. -/
def mainConfig (cfg : Settings) (batchSizeArg : Option Int) : Except String Int :=
  match cfg.validate with
  | .error e => .error e
  | .ok _ =>
    let bs := effBatchSize batchSizeArg cfg
    if bs ≤ 0 ∨ bs > 500 then
      .error "batch_size must be between 1 and 500 for Firehose PutRecordBatch"
    else .ok bs

/-- Model of `producer.main` over an already-fetched record sequence: the
configuration stage, then the batching loop with zero counters. A
configuration error yields no run output at all (no fetch, no delivery). -/
def runMain (cfg : Settings) (batchSizeArg : Option Int) (dry_run : Bool)
    (sink : FirehoseSink) (uuidAt : Nat → String) (nowAt : Nat → Int)
    (raws : List OpenAlexWork) : Except String RunOut :=
  match mainConfig cfg batchSizeArg with
  | .error e => .error e
  | .ok bs => .ok (runLoop sink dry_run bs.toNat cfg.source uuidAt nowAt 0 [] 0 0 raws)

/-! ## Supporting lemmas -/

/-- Lowercase hexadecimal characters. -/
def isHexChar (c : Char) : Bool :=
  c.isDigit || ('a' ≤ c && c ≤ 'f')

theorem nibbleHex_hex (n : Nat) : isHexChar (nibbleHex n) = true := by
  have hb : ∀ m < 16, isHexChar (hexDigits.getD m 'x') = true := by decide
  exact hb (n % 16) (Nat.mod_lt _ (by omega))

theorem sha1Bytes_length (msg : List Nat) : (sha1Bytes msg).length = 20 := by
  simp [sha1Bytes, w32beBytes]

theorem hexPairs_length (bs : List Nat) :
    ((bs.map byteHexPair).flatten).length = 2 * bs.length := by
  induction bs with
  | nil => simp
  | cons b bs ih => simp [byteHexPair, ih]; omega

theorem sha1HexChars_length (msg : List Nat) : (sha1HexChars msg).length = 40 := by
  unfold sha1HexChars
  rw [hexPairs_length, sha1Bytes_length]

theorem sha1HexChars_hex (msg : List Nat) :
    ∀ c ∈ sha1HexChars msg, isHexChar c = true := by
  intro c hc
  simp only [sha1HexChars, List.mem_flatten, List.mem_map] at hc
  obtain ⟨l, ⟨b, _, rfl⟩, hcl⟩ := hc
  simp only [byteHexPair, List.mem_cons, List.mem_singleton] at hcl
  rcases hcl with rfl | rfl | h
  · exact nibbleHex_hex _
  · exact nibbleHex_hex _
  · simp at h

theorem mem_optField_keys (k k2 : String) (o : Option α) (f : α → JVal) :
    k ∈ (optField k2 o f).map Prod.fst ↔ (k = k2 ∧ o.isSome = true) := by
  cases o <;> simp [optField]

/-! ## Claim theorems -/

/-- C5 (amended): `synthetic_email` is deterministic, equals
`user_<digest>@<domain>` where the digest is the SHA-1 hexdigest of the
UTF-8 seed truncated to 10 hexadecimal characters, the seed is the name
with `unknown` substituted when the name is `None` or empty (Python
truthiness), and the domain defaults to `example.com`. -/
theorem c5_synthetic_email (N : Option String) (D : String) :
    synthetic_email N D = synthetic_email N D ∧
    synthetic_email N D =
      "user_" ++ String.mk ((sha1HexChars (utf8Encode (pyOrStr N "unknown"))).take 10) ++
        "@" ++ D ∧
    ((sha1HexChars (utf8Encode (pyOrStr N "unknown"))).take 10).length = 10 ∧
    (∀ c ∈ (sha1HexChars (utf8Encode (pyOrStr N "unknown"))).take 10, isHexChar c = true) ∧
    synthetic_email N = synthetic_email N "example.com" := by
  refine ⟨rfl, rfl, ?_, ?_, rfl⟩
  · simp [List.length_take, sha1HexChars_length]
  · intro c hc
    exact sha1HexChars_hex _ c (List.take_subset _ _ hc)

/-- C5 counterexample: at `N = some ""` the digest is not the hash of `N`
(which would be the SHA-1 of the empty string): the code hashes the
placeholder instead, exactly as it does for `N = none`. -/
theorem c5_counterexample :
    synthetic_email (some "") "example.com" ≠
      "user_" ++ String.mk ((sha1HexChars (utf8Encode "")).take 10) ++ "@" ++ "example.com" ∧
    synthetic_email (some "") "example.com" = synthetic_email none "example.com" := by
  constructor
  · set_option maxRecDepth 100000 in decide
  · rfl

/-- C8: the serialized record handed to the sink
(`model_dump(by_alias=True, mode="json", exclude_none=True)`) contains
the key of an optional envelope field exactly when that field is not
`None`; in particular an envelope with no title, doi or email yields a
JSON object with none of those keys. -/
theorem c8_exclude_none (e : Envelope) :
    ("id" ∈ e.model_dump.map Prod.fst ↔ e.id.isSome = true) ∧
    ("doi" ∈ e.model_dump.map Prod.fst ↔ e.doi.isSome = true) ∧
    ("title" ∈ e.model_dump.map Prod.fst ↔ e.title.isSome = true) ∧
    ("publication_year" ∈ e.model_dump.map Prod.fst ↔ e.publication_year.isSome = true) ∧
    ("host_venue" ∈ e.model_dump.map Prod.fst ↔ e.host_venue.isSome = true) ∧
    ("primary_author" ∈ e.model_dump.map Prod.fst ↔ e.primary_author.isSome = true) ∧
    ("email" ∈ e.model_dump.map Prod.fst ↔ e.email.isSome = true) := by
  refine ⟨?_, ?_, ?_, ?_, ?_, ?_, ?_⟩ <;>
  · simp only [Envelope.model_dump, List.map_append, List.mem_append, mem_optField_keys,
      List.map_cons, List.map_nil, List.mem_cons, List.not_mem_nil]
    simp

/-- C8 witness: a concrete envelope with `title`, `doi` and `email` all
`None` (and a concrete one with them present), instantiating the claim. -/
theorem c8_witness :
    ("id" ∈ (Envelope.model_dump ⟨none, none, none, none, none, none, none, 0, 0, "openalex", "L1"⟩).map Prod.fst ↔
      (none : Option String).isSome = true) ∧
    ("doi" ∈ (Envelope.model_dump ⟨none, none, none, none, none, none, none, 0, 0, "openalex", "L1"⟩).map Prod.fst ↔
      (none : Option String).isSome = true) ∧
    ("title" ∈ (Envelope.model_dump ⟨none, none, none, none, none, none, none, 0, 0, "openalex", "L1"⟩).map Prod.fst ↔
      (none : Option String).isSome = true) ∧
    ("publication_year" ∈ (Envelope.model_dump ⟨none, none, none, none, none, none, none, 0, 0, "openalex", "L1"⟩).map Prod.fst ↔
      (none : Option Int).isSome = true) ∧
    ("host_venue" ∈ (Envelope.model_dump ⟨none, none, none, none, none, none, none, 0, 0, "openalex", "L1"⟩).map Prod.fst ↔
      (none : Option String).isSome = true) ∧
    ("primary_author" ∈ (Envelope.model_dump ⟨none, none, none, none, none, none, none, 0, 0, "openalex", "L1"⟩).map Prod.fst ↔
      (none : Option String).isSome = true) ∧
    ("email" ∈ (Envelope.model_dump ⟨none, none, none, none, none, none, none, 0, 0, "openalex", "L1"⟩).map Prod.fst ↔
      (none : Option String).isSome = true) :=
  c8_exclude_none ⟨none, none, none, none, none, none, none, 0, 0, "openalex", "L1"⟩

theorem put_records_entries_length (sink : FirehoseSink) (records_json : List Rec) :
    (sink.put_records records_json).2.entries.length = records_json.length := by
  simp [FirehoseSink.put_records]

/-- C2 (amended): `put_records` performs no batch-length check: it issues
the single transport call with exactly one NDJSON entry per record, for
every batch, including batches of more than 500 records — nothing is
rejected and nothing is truncated. -/
theorem c2_no_length_check (sink : FirehoseSink) (records_json : List Rec) :
    (sink.put_records records_json).2.entries =
      records_json.map (fun r => utf8Encode (jsonDumps r ++ "\n")) ∧
    (sink.put_records records_json).2.entries.length = records_json.length ∧
    (sink.put_records records_json).2.deliveryStreamName = sink.stream_name :=
  ⟨rfl, put_records_entries_length sink records_json, rfl⟩

/-- C2 counterexample: a batch of 501 records is not rejected — the
underlying transport call is issued carrying all 501 entries. -/
theorem c2_counterexample :
    ((⟨"s", fun _ => ⟨some 0, []⟩⟩ : FirehoseSink).put_records
        (List.replicate 501 ([] : Rec))).2.entries.length = 501 ∧
    500 < ((⟨"s", fun _ => ⟨some 0, []⟩⟩ : FirehoseSink).put_records
        (List.replicate 501 ([] : Rec))).2.entries.length := by
  rw [put_records_entries_length, List.length_replicate]
  exact ⟨rfl, by norm_num⟩

/-- C2 witness: the amended theorem at a concrete two-record batch. -/
theorem c2_witness :
    ((⟨"s", fun _ => ⟨some 0, []⟩⟩ : FirehoseSink).put_records
        [[("a", JVal.i 1)], []]).2.entries =
      [[("a", JVal.i 1)], ([] : Rec)].map (fun r => utf8Encode (jsonDumps r ++ "\n")) ∧
    ((⟨"s", fun _ => ⟨some 0, []⟩⟩ : FirehoseSink).put_records
        [[("a", JVal.i 1)], []]).2.entries.length = [[("a", JVal.i 1)], ([] : Rec)].length ∧
    ((⟨"s", fun _ => ⟨some 0, []⟩⟩ : FirehoseSink).put_records
        [[("a", JVal.i 1)], []]).2.deliveryStreamName =
      (⟨"s", fun _ => ⟨some 0, []⟩⟩ : FirehoseSink).stream_name :=
  c2_no_length_check ⟨"s", fun _ => ⟨some 0, []⟩⟩ [[("a", JVal.i 1)], []]

/-- C7 (amended): empty required settings make the configuration stage,
which runs before any network activity, fail with the message naming the
setting; an out-of-range effective batch size is rejected with the
batch-size message (so any explicitly supplied non-zero value outside
1..500 is rejected); but an explicitly supplied batch size of 0 is
treated as unset and falls back to the configured default instead of
being rejected; and a configuration error aborts the whole run. -/
theorem c7_config_errors :
    (∀ (cfg : Settings) (bsArg : Option Int), cfg.openalex_email = "" →
      mainConfig cfg bsArg =
        .error "OPENALEX_EMAIL is required for polite use of the OpenAlex API.") ∧
    (∀ (cfg : Settings) (bsArg : Option Int), cfg.openalex_email ≠ "" →
      cfg.aws_region = "" → mainConfig cfg bsArg = .error "AWS_REGION is required.") ∧
    (∀ (cfg : Settings) (bsArg : Option Int), cfg.openalex_email ≠ "" →
      cfg.aws_region ≠ "" → cfg.firehose_name = "" →
      mainConfig cfg bsArg = .error "FIREHOSE_NAME is required.") ∧
    (∀ (cfg : Settings) (bsArg : Option Int), cfg.validate = .ok () →
      effBatchSize bsArg cfg ≤ 0 ∨ effBatchSize bsArg cfg > 500 →
      mainConfig cfg bsArg =
        .error "batch_size must be between 1 and 500 for Firehose PutRecordBatch") ∧
    (∀ cfg : Settings, mainConfig cfg (some 0) = mainConfig cfg none) ∧
    (∀ (cfg : Settings) (bsArg : Option Int) (e : String) (dry : Bool)
      (sink : FirehoseSink) (uuidAt : Nat → String) (nowAt : Nat → Int)
      (raws : List OpenAlexWork), mainConfig cfg bsArg = .error e →
      runMain cfg bsArg dry sink uuidAt nowAt raws = .error e) := by
  refine ⟨?_, ?_, ?_, ?_, ?_, ?_⟩
  · intro cfg bsArg h
    simp [mainConfig, Settings.validate, h]
  · intro cfg bsArg h1 h2
    simp [mainConfig, Settings.validate, h1, h2]
  · intro cfg bsArg h1 h2 h3
    simp [mainConfig, Settings.validate, h1, h2, h3]
  · intro cfg bsArg hok hrange
    simp only [mainConfig, hok]
    rw [if_pos hrange]
  · intro cfg
    simp [mainConfig, effBatchSize]
  · intro cfg bsArg e dry sink uuidAt nowAt raws h
    simp [runMain, h]

/-- C7 counterexample: with a valid configuration whose default batch
size is 50, an explicitly supplied batch-size argument of 0 is not
rejected: the configuration stage succeeds with the fallback value 50. -/
theorem c7_counterexample :
    mainConfig
      (⟨"us-east-1", "scholarstream-openalex", "https://api.openalex.org",
        "me@example.com", 50, 2, "openalex"⟩ : Settings) (some 0) = .ok 50 := by
  rfl

/-- C7 witness: the amended theorem instantiated at concrete settings:
an empty contact email fails with its message before any run output, a
non-zero out-of-range explicit batch size fails with the batch-size
message, and an explicit 0 behaves as unset. -/
theorem c7_witness :
    mainConfig
        (⟨"us-east-1", "scholarstream-openalex", "https://api.openalex.org", "",
          50, 2, "openalex"⟩ : Settings) none =
      .error "OPENALEX_EMAIL is required for polite use of the OpenAlex API." ∧
    mainConfig
        (⟨"us-east-1", "scholarstream-openalex", "https://api.openalex.org",
          "me@example.com", 50, 2, "openalex"⟩ : Settings) (some 501) =
      .error "batch_size must be between 1 and 500 for Firehose PutRecordBatch" ∧
    mainConfig
        (⟨"us-east-1", "scholarstream-openalex", "https://api.openalex.org",
          "me@example.com", 50, 2, "openalex"⟩ : Settings) (some 0) =
      mainConfig
        (⟨"us-east-1", "scholarstream-openalex", "https://api.openalex.org",
          "me@example.com", 50, 2, "openalex"⟩ : Settings) none ∧
    runMain
        (⟨"us-east-1", "scholarstream-openalex", "https://api.openalex.org", "",
          50, 2, "openalex"⟩ : Settings) none false
        ⟨"s", fun _ => ⟨none, []⟩⟩ (fun _ => "u") (fun _ => 0) [] =
      .error "OPENALEX_EMAIL is required for polite use of the OpenAlex API." :=
  ⟨c7_config_errors.1 _ none rfl,
    c7_config_errors.2.2.2.1 _ (some 501) rfl (Or.inr (by decide)),
    c7_config_errors.2.2.2.2.1 _,
    c7_config_errors.2.2.2.2.2 _ none _ false _ _ _ []
      (c7_config_errors.1 _ none rfl)⟩

/-- C9: a configured page cap of 0 is falsy in the
`if max_pages and page_count >= max_pages` guard, so the fetch loop
behaves exactly as if no cap were configured: it keeps consuming pages
until the upstream cursor is exhausted. -/
theorem c9_zero_page_cap {I : Type} (responses : List (HttpResponse I))
    (cursor : String) (pageCount : Nat) (sleepSeconds : Rat) :
    worksStreamAux cursor pageCount (some 0) sleepSeconds responses =
      worksStreamAux cursor pageCount none sleepSeconds responses := by
  induction responses generalizing cursor pageCount with
  | nil => rfl
  | cons r rest ih =>
    simp only [worksStreamAux]
    by_cases h1 : r.status = 429
    · rw [if_pos h1, if_pos h1]
      cases hp : pyIntParse (r.retryAfter.getD "2") with
      | none => rfl
      | some n =>
        dsimp only
        by_cases hn : n < 0
        · rw [if_pos hn, if_pos hn]
        · rw [if_neg hn, if_neg hn, ih]
    · rw [if_neg h1, if_neg h1]
      by_cases h4 : 400 ≤ r.status
      · rw [if_pos h4, if_pos h4]
      · rw [if_neg h4, if_neg h4]
        cases hc : pyTruthyCursor r.nextCursor with
        | none => rfl
        | some nc =>
          have hcap : pyCapReached (some 0) (pageCount + 1) =
              pyCapReached none (pageCount + 1) := by
            simp [pyCapReached]
          dsimp only
          simp only [ih]
          rw [hcap]

/-- C9 witness: with a two-page script, a page cap of 0 runs identically
to no cap at all. -/
theorem c9_witness :
    worksStreamAux "*" 0 (some 0) 0
        [pageResp [1, 2] (some "abc"), pageResp ([3] : List Nat) none] =
      worksStreamAux "*" 0 none 0
        [pageResp [1, 2] (some "abc"), pageResp ([3] : List Nat) none] :=
  c9_zero_page_cap [pageResp [1, 2] (some "abc"), pageResp [3] none] "*" 0 0

/-- C10: a 429 response whose `Retry-After` header does not parse as a
Python integer (an HTTP-date form, for instance) makes the fetch loop
raise the parse error at once: no items are yielded, no sleep happens,
no retry is made, and the whole sequence aborts. -/
theorem c10_retry_after_parse {I : Type} (hdr : String)
    (rest : List (HttpResponse I)) (cursor : String) (pageCount : Nat)
    (maxPages : Option Int) (sleepSeconds : Rat)
    (hp : pyIntParse hdr = none) :
    worksStreamAux cursor pageCount maxPages sleepSeconds
        (rateLimited (some hdr) :: rest) =
      ⟨[], [.req cursor], .valueError⟩ := by
  simp only [worksStreamAux, rateLimited, if_true, Option.getD_some, hp]

/-- C10 witness: an HTTP-date `Retry-After` header aborts the sequence. -/
theorem c10_witness :
    worksStreamAux "*" 0 none 0
        (rateLimited (some "Wed, 21 Oct 2015 07:28:00 GMT") ::
          ([pageResp [1] none] : List (HttpResponse Nat))) =
      ⟨[], [.req "*"], .valueError⟩ :=
  c10_retry_after_parse "Wed, 21 Oct 2015 07:28:00 GMT" [pageResp [1] none] "*" 0
    none 0 (by decide)

/-- C3: a 429 response makes the loop sleep for the parsed retry-delay
hint (the header, defaulting to "2" when absent) and retry the same
request: the cursor and page count are unchanged, the only extra effects
are the rate-limited request and the sleep, and the items, the halt and
everything after are exactly those of the run without the 429 — nothing
dropped, nothing duplicated, no page consumed. -/
theorem c3_rate_limit_retry {I : Type} (h : Option String) (n : Int)
    (rest : List (HttpResponse I)) (cursor : String) (pageCount : Nat)
    (maxPages : Option Int) (sleepSeconds : Rat)
    (hp : pyIntParse (h.getD "2") = some n) (hn : 0 ≤ n) :
    worksStreamAux cursor pageCount maxPages sleepSeconds (rateLimited h :: rest) =
      ⟨(worksStreamAux cursor pageCount maxPages sleepSeconds rest).items,
        .req cursor :: .slept (n : Rat) ::
          (worksStreamAux cursor pageCount maxPages sleepSeconds rest).trace,
        (worksStreamAux cursor pageCount maxPages sleepSeconds rest).halt⟩ ∧
    (h = none → n = 2) := by
  constructor
  · simp only [worksStreamAux, rateLimited, if_true, hp]
    rw [if_neg (by omega)]
  · rintro rfl
    have h2 : pyIntParse ((none : Option String).getD "2") = some 2 := by decide
    rw [h2] at hp
    exact (Option.some_inj.mp hp).symm

/-- C3 witness: a 429 with hint "3" before a single final page. -/
theorem c3_witness :
    (worksStreamAux "*" 0 none 0
        (rateLimited (some "3") :: ([pageResp [7] none] : List (HttpResponse Nat))) =
      ⟨(worksStreamAux "*" 0 none 0
          ([pageResp [7] none] : List (HttpResponse Nat))).items,
        .req "*" :: .slept ((3 : Int) : Rat) ::
          (worksStreamAux "*" 0 none 0
            ([pageResp [7] none] : List (HttpResponse Nat))).trace,
        (worksStreamAux "*" 0 none 0
          ([pageResp [7] none] : List (HttpResponse Nat))).halt⟩) ∧
    (some "3" = none → (3 : Int) = 2) :=
  c3_rate_limit_retry (some "3") 3 [pageResp [7] none] "*" 0 none 0 (by decide)
    (by decide)

/-- C4: for a page with cursor `abc` followed by a page with a null or
absent cursor, the stream yields the items of the first page then those
of the second, in source order, and terminates normally; and a response
whose next cursor is absent, null or empty always ends the sequence at
once, whatever would come after. -/
theorem c4_pagination {I : Type} :
    (∀ (i1 i2 : List I) (s : Rat), 0 ≤ s →
      (works_stream none s [pageResp i1 (some "abc"), pageResp i2 none]).items =
        i1 ++ i2 ∧
      (works_stream none s [pageResp i1 (some "abc"), pageResp i2 none]).halt =
        .done) ∧
    (∀ (i : List I) (nc : Option String) (rest : List (HttpResponse I))
      (cursor : String) (pageCount : Nat) (maxPages : Option Int) (s : Rat),
      nc = none ∨ nc = some "" →
      worksStreamAux cursor pageCount maxPages s (pageResp i nc :: rest) =
        ⟨i, [.req cursor], .done⟩) := by
  constructor
  · intro i1 i2 s hs
    by_cases hs0 : s = 0
    · subst hs0
      simp [works_stream, worksStreamAux, pageResp, pyTruthyCursor, pyCapReached]
    · have hlt : ¬s < 0 := not_lt.mpr hs
      constructor <;>
        simp [works_stream, worksStreamAux, pageResp, pyTruthyCursor, pyCapReached,
          hs0, hlt]
  · rintro i nc rest cursor pageCount maxPages s (rfl | rfl) <;>
      simp [worksStreamAux, pageResp, pyTruthyCursor]

/-- C4 witness: two concrete pages, the first with cursor `abc`, the
second with a null cursor, and separately an empty-cursor page that ends
the sequence despite a trailing script entry. -/
theorem c4_witness :
    ((works_stream none 1
        [pageResp ([1, 2] : List Nat) (some "abc"), pageResp [3] none]).items =
      [1, 2] ++ [3] ∧
    (works_stream none 1
        [pageResp ([1, 2] : List Nat) (some "abc"), pageResp [3] none]).halt =
      .done) ∧
    worksStreamAux "*" 0 none 1
        (pageResp ([4] : List Nat) (some "") :: [pageResp [5] none]) =
      ⟨[4], [.req "*"], .done⟩ :=
  ⟨c4_pagination.1 [1, 2] [3] 1 (by norm_num),
    c4_pagination.2 [4] (some "") [pageResp [5] none] "*" 0 none 1 (Or.inr rfl)⟩

theorem flush_mono (batch : List Envelope) (sink : FirehoseSink) (d : Bool)
    (total failed : Nat) :
    total ≤ (flush batch sink d total failed).1 ∧
    failed ≤ (flush batch sink d total failed).2.1 := by
  cases d <;> simp [flush]

theorem runLoop_mono :
    ∀ (raws : List OpenAlexWork) (sink : FirehoseSink) (d : Bool) (bs : Nat)
      (src : String) (u : Nat → String) (nw : Nat → Int) (idx : Nat)
      (b : List Envelope) (total failed : Nat),
      total ≤ (runLoop sink d bs src u nw idx b total failed raws).totalSent ∧
      failed ≤ (runLoop sink d bs src u nw idx b total failed raws).totalFailed := by
  intro raws
  induction raws with
  | nil =>
    intro sink d bs src u nw idx b total failed
    cases b with
    | nil => simp [runLoop]
    | cons e es =>
      simp only [runLoop]
      exact flush_mono _ _ _ _ _
  | cons w rest ih =>
    intro sink d bs src u nw idx b total failed
    simp only [runLoop]
    split
    · dsimp only
      exact ⟨le_trans (flush_mono _ _ _ _ _).1 (ih _ _ _ _ _ _ _ _ _ _).1,
        le_trans (flush_mono _ _ _ _ _).2 (ih _ _ _ _ _ _ _ _ _ _).2⟩
    · exact ih _ _ _ _ _ _ _ _ _ _

theorem runLoop_dry :
    ∀ (raws : List OpenAlexWork) (sink : FirehoseSink) (bs : Nat) (src : String)
      (u : Nat → String) (nw : Nat → Int) (idx : Nat) (b : List Envelope)
      (total failed : Nat),
      (runLoop sink true bs src u nw idx b total failed raws).totalSent = total ∧
      (runLoop sink true bs src u nw idx b total failed raws).totalFailed = failed ∧
      (runLoop sink true bs src u nw idx b total failed raws).sinkCalls = [] := by
  intro raws
  induction raws with
  | nil =>
    intro sink bs src u nw idx b total failed
    cases b <;> simp [runLoop, flush]
  | cons w rest ih =>
    intro sink bs src u nw idx b total failed
    simp only [runLoop]
    split
    · have ho := ih sink bs src u nw (idx + 1) [] total failed
      simpa [flush] using ho
    · exact ih _ _ _ _ _ _ _ _ _

theorem runLoop_flushed :
    ∀ (raws : List OpenAlexWork) (sink sink2 : FirehoseSink) (d d2 : Bool)
      (bs : Nat) (src : String) (u : Nat → String) (nw : Nat → Int) (idx : Nat)
      (b : List Envelope) (t f t2 f2 : Nat),
      (runLoop sink d bs src u nw idx b t f raws).flushedBatches =
        (runLoop sink2 d2 bs src u nw idx b t2 f2 raws).flushedBatches := by
  intro raws
  induction raws with
  | nil =>
    intro sink sink2 d d2 bs src u nw idx b t f t2 f2
    cases b <;> simp [runLoop]
  | cons w rest ih =>
    intro sink sink2 d d2 bs src u nw idx b t f t2 f2
    simp only [runLoop]
    split
    · dsimp only
      exact congrArg (List.cons _) (ih _ _ _ _ _ _ _ _ _ _ _ _ _ _)
    · exact ih _ _ _ _ _ _ _ _ _ _ _ _ _ _

/-- C1: a non-dry-run `flush` adds exactly the batch length to
`total_sent` whatever the sink reports, adds exactly the reported
`FailedPutCount` (0 when absent) to `total_failed`, and both counters
are monotonically non-decreasing, through any single flush and through
the whole batching loop. -/
theorem c1_flush_counters (batch : List Envelope) (sink : FirehoseSink)
    (total failed : Nat) :
    (flush batch sink false total failed).1 = total + batch.length ∧
    (flush batch sink false total failed).2.1 =
      failed +
        ((sink.put_records (batch.map Envelope.model_dump)).1.failedPutCount.getD 0) ∧
    total ≤ (flush batch sink false total failed).1 ∧
    failed ≤ (flush batch sink false total failed).2.1 ∧
    (∀ (d : Bool) (bs : Nat) (src : String) (u : Nat → String) (nw : Nat → Int)
      (idx : Nat) (b : List Envelope) (raws : List OpenAlexWork),
      total ≤ (runLoop sink d bs src u nw idx b total failed raws).totalSent ∧
      failed ≤ (runLoop sink d bs src u nw idx b total failed raws).totalFailed) := by
  refine ⟨?_, ?_, (flush_mono _ _ _ _ _).1, (flush_mono _ _ _ _ _).2, ?_⟩
  · simp [flush]
  · simp [flush]
  · intro d bs src u nw idx b raws
    exact runLoop_mono raws sink d bs src u nw idx b total failed

/-- C1 witness: a one-envelope batch against a sink reporting one failed
record, starting from counters 2 and 3. -/
theorem c1_witness :
    (flush [⟨none, none, some "T", none, none, none, some "x@y", 0, 0, "openalex", "L"⟩]
        ⟨"s", fun _ => ⟨some 1, []⟩⟩ false 2 3).1 =
      2 + [(⟨none, none, some "T", none, none, none, some "x@y", 0, 0, "openalex", "L"⟩ : Envelope)].length ∧
    (flush [⟨none, none, some "T", none, none, none, some "x@y", 0, 0, "openalex", "L"⟩]
        ⟨"s", fun _ => ⟨some 1, []⟩⟩ false 2 3).2.1 =
      3 +
        (((⟨"s", fun _ => ⟨some 1, []⟩⟩ : FirehoseSink).put_records
            ([(⟨none, none, some "T", none, none, none, some "x@y", 0, 0, "openalex", "L"⟩ : Envelope)].map
              Envelope.model_dump)).1.failedPutCount.getD 0) ∧
    2 ≤ (flush [⟨none, none, some "T", none, none, none, some "x@y", 0, 0, "openalex", "L"⟩]
        ⟨"s", fun _ => ⟨some 1, []⟩⟩ false 2 3).1 ∧
    3 ≤ (flush [⟨none, none, some "T", none, none, none, some "x@y", 0, 0, "openalex", "L"⟩]
        ⟨"s", fun _ => ⟨some 1, []⟩⟩ false 2 3).2.1 ∧
    (∀ (d : Bool) (bs : Nat) (src : String) (u : Nat → String) (nw : Nat → Int)
      (idx : Nat) (b : List Envelope) (raws : List OpenAlexWork),
      2 ≤ (runLoop ⟨"s", fun _ => ⟨some 1, []⟩⟩ d bs src u nw idx b 2 3 raws).totalSent ∧
      3 ≤ (runLoop ⟨"s", fun _ => ⟨some 1, []⟩⟩ d bs src u nw idx b 2 3 raws).totalFailed) :=
  c1_flush_counters
    [⟨none, none, some "T", none, none, none, some "x@y", 0, 0, "openalex", "L"⟩]
    ⟨"s", fun _ => ⟨some 1, []⟩⟩ 2 3

/-- C6: in dry-run mode the sink is never invoked and the final counters
are 0 and 0, for every input sequence and batch size, while the batches
assembled and handed to `flush` are exactly those of a non-dry-run over
the same inputs (identical fetch and normalize work). -/
theorem c6_dry_run (raws : List OpenAlexWork) (bs : Nat) (src : String)
    (sink sink2 : FirehoseSink) (u : Nat → String) (nw : Nat → Int) :
    (runLoop sink true bs src u nw 0 [] 0 0 raws).sinkCalls = [] ∧
    (runLoop sink true bs src u nw 0 [] 0 0 raws).totalSent = 0 ∧
    (runLoop sink true bs src u nw 0 [] 0 0 raws).totalFailed = 0 ∧
    (runLoop sink true bs src u nw 0 [] 0 0 raws).flushedBatches =
      (runLoop sink2 false bs src u nw 0 [] 0 0 raws).flushedBatches := by
  have hd := runLoop_dry raws sink bs src u nw 0 [] 0 0
  exact ⟨hd.2.2, hd.1, hd.2.1,
    runLoop_flushed raws sink sink2 true false bs src u nw 0 [] 0 0 0 0⟩

/-- C6 witness: five records with batch size two — no sink call, counters
0 and 0, and the same flushed batches as the non-dry-run. -/
theorem c6_witness :
    (runLoop ⟨"s", fun _ => ⟨some 1, []⟩⟩ true 2 "openalex" (fun n => toString n)
        (fun _ => 0) 0 [] 0 0
        (List.replicate 5 ⟨none, none, none, none, none, none, none, none⟩)).sinkCalls = [] ∧
    (runLoop ⟨"s", fun _ => ⟨some 1, []⟩⟩ true 2 "openalex" (fun n => toString n)
        (fun _ => 0) 0 [] 0 0
        (List.replicate 5 ⟨none, none, none, none, none, none, none, none⟩)).totalSent = 0 ∧
    (runLoop ⟨"s", fun _ => ⟨some 1, []⟩⟩ true 2 "openalex" (fun n => toString n)
        (fun _ => 0) 0 [] 0 0
        (List.replicate 5 ⟨none, none, none, none, none, none, none, none⟩)).totalFailed = 0 ∧
    (runLoop ⟨"s", fun _ => ⟨some 1, []⟩⟩ true 2 "openalex" (fun n => toString n)
        (fun _ => 0) 0 [] 0 0
        (List.replicate 5 ⟨none, none, none, none, none, none, none, none⟩)).flushedBatches =
      (runLoop ⟨"t", fun _ => ⟨some 0, []⟩⟩ false 2 "openalex" (fun n => toString n)
        (fun _ => 0) 0 [] 0 0
        (List.replicate 5 ⟨none, none, none, none, none, none, none, none⟩)).flushedBatches :=
  c6_dry_run (List.replicate 5 ⟨none, none, none, none, none, none, none, none⟩) 2
    "openalex" ⟨"s", fun _ => ⟨some 1, []⟩⟩ ⟨"t", fun _ => ⟨some 0, []⟩⟩
    (fun n => toString n) (fun _ => 0)

/-- C5 witness: the amended form at the concrete name `Bob` and domain
`acme.test`. -/
theorem c5_witness :
    synthetic_email (some "Bob") "acme.test" = synthetic_email (some "Bob") "acme.test" ∧
    synthetic_email (some "Bob") "acme.test" =
      "user_" ++
        String.mk ((sha1HexChars (utf8Encode (pyOrStr (some "Bob") "unknown"))).take 10) ++
        "@" ++ "acme.test" ∧
    ((sha1HexChars (utf8Encode (pyOrStr (some "Bob") "unknown"))).take 10).length = 10 ∧
    (∀ c ∈ (sha1HexChars (utf8Encode (pyOrStr (some "Bob") "unknown"))).take 10,
      isHexChar c = true) ∧
    synthetic_email (some "Bob") = synthetic_email (some "Bob") "example.com" :=
  c5_synthetic_email (some "Bob") "acme.test"



